import Mathlib

/-!
Verification development for the summarization pipeline of the pyats_scripts
repository: the two LLM-agent helper classes `AIAgent` (AiAgent.py, the
"Completion" backend variant) and `CloudflareAIAgent` (CloudflareAiAgent.py,
the "Conversational" backend variant).

The embedding is shallow:
* text is Lean `String` (Python `str` slicing / length are by code points,
  matched here by working on `String.data`, the list of characters);
* the per-module in-memory cache `_DEVICE_CACHE : user → device → {"summary": [...]}`
  is modelled as a total map `(user, device) ↦ summary list`, where an absent
  entry is the empty list (this is exactly how `_ensure_cache` makes the cache
  observable: it creates `{"summary": []}` on first touch, so "absent" and
  "present but empty" are indistinguishable through the public API);
* one HTTP round trip is modelled by a `NetResult` value supplied by a backend
  oracle `Nat → NetResult` (request number ↦ network outcome), because the two
  methods issue their requests strictly sequentially;
* Python exceptions are split into the classes the code itself distinguishes:
  `ReqError.agentError` models `AIAgentError` / `CloudflareAIAgentError`
  (caught by `generate` / `get_final_response` and converted to
  `(False, message)`), while `ReqError.pyError` models any other exception
  (`KeyError`, `TypeError`, JSON decode errors) which the code does NOT catch
  and which therefore escapes the public methods;
* whitespace trimming (`str.strip()`) is modelled by `String.trim`; the claims
  never depend on the exotic whitespace characters on which Python's notion of
  whitespace is wider than Lean's.
-/

/-- A JSON response body, restricted to the two fields the adapters read:
the top-level string field `output` (read by the Completion variant) and the
nested `result.response` (read by the Conversational variant).
`result = none` means no `result` key; `result = some none` means a `result`
object without a `response` key. -/
structure JsonBody where
  output : Option String
  result : Option (Option String)
deriving DecidableEq

/-- An HTTP response: status code, raw body text (`resp.text`, used for the
truncated diagnostic excerpt), and the parsed JSON body (`resp.json()`;
`none` models a body that fails to parse as JSON). -/
structure HttpResponse where
  status : Nat
  text : String
  json : Option JsonBody
deriving DecidableEq

/-- Outcome of one attempted HTTP round trip: either a transport-level error
(`requests.RequestException`) or a response. -/
inductive NetResult where
  | exn (msg : String)
  | resp (r : HttpResponse)
deriving DecidableEq

/-- Errors raised inside `_request_ai`. `agentError` is an
`AIAgentError` / `CloudflareAIAgentError` (classified failure, caught by the
callers); `pyError` is any other Python exception, which the callers do not
catch. -/
inductive ReqError where
  | agentError (msg : String)
  | pyError (msg : String)
deriving DecidableEq

/-- One element of a Conversational message list. `Msg.str` is a bare string
element (the string system prompt that `AIAgent._prepare_payload` puts in a
list on its `"cloudlfare"` branch); `Msg.role` is a `{"role": ..., "content": ...}`
dictionary. -/
inductive Msg where
  | str (s : String)
  | role (name content : String)
deriving DecidableEq

/-- The request payload handed to `_request_ai`: either a single templated
prompt string (Completion) or a message list (Conversational). -/
inductive Payload where
  | completion (s : String)
  | messages (msgs : List Msg)
deriving DecidableEq

/-- The whitespace characters of Python's `string.whitespace` (`str.strip`
and `textwrap` whitespace handling). -/
def pyWhitespace (c : Char) : Bool :=
  c = ' ' || c = '\t' || c = '\n' || c = '\r' || c = '\x0b' || c = '\x0c'

/-- `pat` occurs somewhere in `l`: `pat` is a prefix of some suffix of `l`.
(The core `String` search functions are defined by well-founded recursion on
byte positions and do not reduce; the Python string primitives are therefore
implemented structurally on the character list.) -/
def subOccurs (pat : List Char) : List Char → Bool
  | [] => pat.isEmpty
  | c :: rest => pat.isPrefixOf (c :: rest) || subOccurs pat rest

/-- Python's substring test `pat in s` (`"" in s` is `True` in Python,
matched by `isPrefixOf`). -/
def strContains (s pat : String) : Bool :=
  subOccurs pat.data s.data

/-- Left-to-right scan counting the non-overlapping occurrences of `pat`
(Python `s.count(pat)` for nonempty `pat`).  The fuel argument bounds the
recursion; `fuel = l.length` is always sufficient since every step consumes
at least one character. -/
def countOccurAux (pat : List Char) : Nat → List Char → Nat
  | 0, _ => 0
  | _, [] => 0
  | fuel + 1, c :: rest =>
    if pat.isPrefixOf (c :: rest) ∧ pat ≠ [] then
      1 + countOccurAux pat fuel ((c :: rest).drop pat.length)
    else countOccurAux pat fuel rest

/-- Python's `s.count(pat)` for nonempty `pat`. -/
def countOccur (s pat : String) : Nat :=
  countOccurAux pat.data s.data.length s.data

/-- Python's `s.replace(pat, rep)` for nonempty `pat`: every non-overlapping
occurrence, scanned left to right, is replaced (for `pat = ""` and `rep = ""`,
the one shape the source can produce with an empty pattern, both this model
and Python return `s` unchanged). -/
def replaceAllAux (pat rep : List Char) : Nat → List Char → List Char
  | 0, l => l
  | _, [] => []
  | fuel + 1, c :: rest =>
    if pat.isPrefixOf (c :: rest) ∧ pat ≠ [] then
      rep ++ replaceAllAux pat rep fuel ((c :: rest).drop pat.length)
    else c :: replaceAllAux pat rep fuel rest

/-- Python's `s.replace(pat, rep)`. -/
def pyReplace (s pat rep : String) : String :=
  String.mk (replaceAllAux pat.data rep.data s.data.length s.data)

/-- Python's `s.strip()` (over the ASCII whitespace of `string.whitespace`;
no claim depends on the non-ASCII whitespace Python would also strip). -/
def pyStrip (s : String) : String :=
  String.mk (((s.data.dropWhile (fun c => pyWhitespace c)).reverse.dropWhile
    (fun c => pyWhitespace c)).reverse)

/-- Python's `s[:n]`. -/
def pyTake (s : String) (n : Nat) : String :=
  String.mk (s.data.take n)

/-- Python's `sep.join(xs)`. -/
def joinWith (sep : String) : List String → String
  | [] => ""
  | [x] => x
  | x :: y :: xs => x ++ sep ++ joinWith sep (y :: xs)

/-- The process-wide summary cache of one agent module, observed through
`_ensure_cache`: `(user, device) ↦ list of cached summaries` (absent ≡ `[]`). -/
def Cache : Type := String → String → List String

/-- `summaries.append(out)` on the cache entry of `(user, device)`:
the in-place list append performed by `generate`. -/
def cacheAppend (c : Cache) (user device out : String) : Cache :=
  fun u d => if u = user ∧ d = device then c u d ++ [out] else c u d

/-- Observable outcome of one `generate` / `get_final_response` invocation.
`result = Except.ok (ok, payload)` is the Python return value `(ok, payload)`;
`result = Except.error msg` means an uncaught Python exception escaped the
method.  `cache` is the module cache after the call and `sent` the list of
request payloads handed to the HTTP layer, in order (so `sent.length` is the
number of backend round trips). -/
structure GenOut (π : Type) where
  result : Except String (Bool × String)
  cache : Cache
  sent : List π

deriving instance DecidableEq for Except

/- ------------------------------------------------------------------ -/
/- Chunker, fixed-window policy (CloudflareAIAgent.generate):
   `[raw_output[i:i + n] for i in range(0, len(raw_output), n)]`          -/
/- ------------------------------------------------------------------ -/

/-- Fixed-window slicing on a character list.  The fuel argument only bounds
the recursion; `fuel = l.length` is always sufficient when `0 < n`, which is
the only regime the source exercises (`n = CHUNK_CHAR_LEN = 6144`; `n = 0`
would raise `ValueError` in Python). -/
def windowChunksAux (n : Nat) : List Char → Nat → List (List Char)
  | [], _ => []
  | _, 0 => []
  | l, fuel + 1 => l.take n :: windowChunksAux n (l.drop n) fuel

/-- The fixed-window chunker of `CloudflareAIAgent.generate`:
`[raw_output[i:i + n] for i in range(0, len(raw_output), n)]`. -/
def cfChunks (s : String) (n : Nat) : List String :=
  (windowChunksAux n s.data s.data.length).map String.mk

/- ------------------------------------------------------------------ -/
/- Chunker, word-wrap policy (AIAgent.generate): textwrap.wrap(text, n)
   with the default TextWrapper configuration.                          -/
/- ------------------------------------------------------------------ -/

/-- `TextWrapper._munge_whitespace` for tab-free input: every whitespace
character is replaced by a space (`expand_tabs` is the identity when the text
contains no tab; `replace_whitespace` translates the rest to `' '`). -/
def mungeWhitespace (l : List Char) : List Char :=
  l.map (fun c => if pyWhitespace c then ' ' else c)

/-- A chunk produced by `TextWrapper._split` is blank iff `chunk.strip() == ''`.
After whitespace munging the blank chunks are exactly the space runs. -/
def isBlankRun (r : List Char) : Bool :=
  r.all (fun c => pyWhitespace c)

/-- `TextWrapper._split` on munged, hyphen-free text: the wordsep regular
expression then degenerates to "maximal runs of spaces alternate with maximal
runs of non-spaces".  Fuel-bounded; `fuel = l.length` is always sufficient as
each step consumes a nonempty run. -/
def chunkRunsAux : Nat → List Char → List (List Char)
  | 0, _ => []
  | _, [] => []
  | fuel + 1, c :: rest =>
    let sp := c == ' '
    ((c :: rest).takeWhile (fun x => (x == ' ') == sp)) ::
      chunkRunsAux fuel ((c :: rest).dropWhile (fun x => (x == ' ') == sp))

/-- `TextWrapper._split` (see `chunkRunsAux`). -/
def chunkRuns (l : List Char) : List (List Char) :=
  chunkRunsAux l.length l

/-- The inner greedy loop of `TextWrapper._wrap_chunks`: keep taking chunks
while the current line length stays within `width`; returns the line chunks
and the remaining chunks. -/
def fillLine (width : Nat) : Nat → List (List Char) → List (List Char) × List (List Char)
  | _, [] => ([], [])
  | curLen, r :: rest =>
    if curLen + r.length ≤ width then
      let res := fillLine width (curLen + r.length) rest
      (r :: res.1, res.2)
    else ([], r :: rest)

/-- One drop of a leading whitespace chunk
(`if self.drop_whitespace and chunks[-1].strip() == '' and lines: del chunks[-1]`). -/
def dropLeadingBlank (hasLines : Bool) (chunks : List (List Char)) : List (List Char) :=
  match hasLines, chunks with
  | true, r :: rest => if isBlankRun r then rest else r :: rest
  | _, chunks => chunks

/-- The outer loop of `TextWrapper._wrap_chunks` with the default
configuration (`drop_whitespace`, `break_long_words`, empty indents,
`max_lines = None`) on hyphen-free chunks, so `_handle_long_word` always
breaks the long chunk at `space_left = width - cur_len` (`width ≥ 1` in the
source: `CHUNK_CHAR_LEN = 1500`).  Fuel-bounded: every iteration consumes at
least one chunk or at least one character, so
`fuel = total characters + number of chunks + 1` is always sufficient. -/
def wrapLines (width : Nat) : Nat → Bool → List (List Char) → List (List Char)
  | 0, _, _ => []
  | _, _, [] => []
  | fuel + 1, hasLines, chunks0 =>
    match dropLeadingBlank hasLines chunks0 with
    | [] => []
    | c :: cs =>
      let fl := fillLine width 0 (c :: cs)
      let curLen := (fl.1.map List.length).sum
      let step :=
        match fl.2 with
        | r :: rest =>
          if width < r.length then
            let spaceLeft := if width < 1 then 1 else width - curLen
            (fl.1 ++ [r.take spaceLeft], r.drop spaceLeft :: rest)
          else (fl.1, r :: rest)
        | [] => (fl.1, ([] : List (List Char)))
      let line :=
        match step.1.getLast? with
        | some r => if isBlankRun r then step.1.dropLast else step.1
        | none => step.1
      if line = [] then wrapLines width fuel hasLines step.2
      else line.flatten :: wrapLines width fuel true step.2

/-- `textwrap.wrap(s, width)` with the default `TextWrapper` configuration,
modelled for tab-free, hyphen-free input (the regime of every concrete text in
this development; tabs and hyphens only refine chunk boundaries further and
never enlarge chunks). -/
def textwrapWrap (s : String) (width : Nat) : List String :=
  let munged := mungeWhitespace s.data
  let chunks := chunkRuns munged
  (wrapLines width (munged.length + chunks.length + 1) false chunks).map String.mk

/- ------------------------------------------------------------------ -/
/- The chunk-dispatch loop shared by both `generate` methods.
   AiAgent.py lines 183-194 and CloudflareAiAgent.py lines 159-170 are
   textually identical up to the request function and payload builder,
   so the loop is embedded once and instantiated twice.                 -/
/- ------------------------------------------------------------------ -/

/-- The `for idx, chunk in enumerate(chunks, 1): ... except ...: return False, str(exc)`
loop of `generate`, followed by `return True, summaries[-1] if summaries else ""`.
`j` is the number of chunks already processed (so the 1-based part number is
`j + 1` and the backend oracle is consulted at index `j`), `c` the cache so
far, `acc` the payloads already handed to the HTTP layer. -/
def gen_loop {π : Type} (request : π → NetResult → Except ReqError String)
    (mkp : Nat → String → π) (backend : Nat → NetResult) (user device : String) :
    Nat → Cache → List π → List String → GenOut π
  | _, c, acc, [] => ⟨Except.ok (true, (c user device).getLastD ""), c, acc⟩
  | j, c, acc, chunk :: rest =>
    let p := mkp j chunk
    match request p (backend j) with
    | Except.ok out =>
      gen_loop request mkp backend user device (j + 1)
        (cacheAppend c user device out) (acc ++ [p]) rest
    | Except.error (ReqError.agentError e) => ⟨Except.ok (false, e), c, acc ++ [p]⟩
    | Except.error (ReqError.pyError e) => ⟨Except.error e, c, acc ++ [p]⟩

namespace AIAgent

/-- `AIAgent.CHUNK_CHAR_LEN`. -/
def CHUNK_CHAR_LEN : Nat := 1500

/-- The module-level `DEFAULT_SYSTEM_PROMPT` of AiAgent.py (a plain string). -/
def DEFAULT_SYSTEM_PROMPT : String :=
  "### Role: You are a senior network engineer.\n### Task: Evaluate and summarise network-device output.\n\n"

/-- `AIAgent._prepare_payload`.  Note the branch condition tests the literal
`"cloudlfare"` (typo preserved from the source, line 97); on that branch the
string system prompt is placed as a bare list element next to a role
dictionary, exactly as in the source. -/
def prepare_payload (baseUrl sysP userPrompt chunk : String) : Payload :=
  if strContains baseUrl "cloudlfare" then
    Payload.messages [Msg.str sysP, Msg.role "user" userPrompt]
  else
    Payload.completion ("<s>[INST] " ++ sysP ++ userPrompt ++ "\n\n" ++ chunk ++ " [/INST]")

/-- `AIAgent._request_ai` given the outcome `net` of the one HTTP round trip
it may attempt.  On the `"cloudflare" in self.base_url` branch the source
posts `json=input` — the Python builtin `input` function — which fails JSON
serialization with a `TypeError` before any request is sent; that branch is
therefore an immediate uncaught exception.  On the normal branch: non-200
status and a missing `output` field raise `AIAgentError` (classified); a
non-JSON body raises the `requests` JSON decode error (unclassified); the
echoed prompt is removed from the output (`str.replace` removes every
occurrence) before `strip()`. -/
def request_ai (baseUrl : String) (prompt : Payload) (net : NetResult) :
    Except ReqError String :=
  let url := if strContains baseUrl "cloudflare" then baseUrl else baseUrl ++ "/generate"
  if strContains baseUrl "cloudflare" then
    Except.error (ReqError.pyError
      "TypeError: Object of type builtin_function_or_method is not JSON serializable")
  else
    match net with
    | NetResult.exn _ => Except.error (ReqError.agentError "Network error talking to LLM API")
    | NetResult.resp r =>
      if r.status ≠ 200 then
        Except.error (ReqError.agentError
          ("LLM API returned HTTP " ++ toString r.status ++ ": " ++ pyTake r.text 120))
      else
        match r.json with
        | none => Except.error (ReqError.pyError "requests JSON decode error")
        | some data =>
          if data.output = none ∧ strContains url "cloudflare" = false then
            Except.error (ReqError.agentError "LLM API JSON missing 'output' field")
          else if strContains url "cloudflare" = false then
            match data.output with
            | some out =>
              match prompt with
              | Payload.completion ps =>
                Except.ok (pyStrip (if strContains out ps then pyReplace out ps "" else out))
              | Payload.messages _ =>
                Except.error (ReqError.pyError
                  "TypeError: 'in <string>' requires string as left operand, not list")
            | none => Except.error (ReqError.pyError "unreachable: output present")
          else
            match data.result with
            | none => Except.error (ReqError.pyError "KeyError: 'result'")
            | some none => Except.error (ReqError.pyError "KeyError: 'response'")
            | some (some s) => Except.ok (pyStrip s)

/-- The payload `generate` builds for the 0-based chunk position `j`:
`self._prepare_payload(f"{prompt} (part {idx}/{len(chunks)})", chunk)` with
`idx = j + 1`. -/
def mk_chunk_payload (baseUrl sysP prompt : String) (total j : Nat) (chunk : String) : Payload :=
  prepare_payload baseUrl sysP
    (prompt ++ " (part " ++ toString (j + 1) ++ "/" ++ toString total ++ ")") chunk

/-- `AIAgent.generate`: chunk via `textwrap.wrap(raw_output, CHUNK_CHAR_LEN)`,
then dispatch each chunk in order. -/
def generate (baseUrl sysP : String) (backend : Nat → NetResult) (c : Cache)
    (device user rawOutput prompt : String) : GenOut Payload :=
  let chunks := textwrapWrap rawOutput CHUNK_CHAR_LEN
  gen_loop (request_ai baseUrl) (mk_chunk_payload baseUrl sysP prompt chunks.length)
    backend user device 0 c [] chunks

/-- The outcome of the round trip `generate` performs for chunk `i` (0-based)
of the chunk list `chunks`. -/
def gen_step (baseUrl sysP prompt : String) (chunks : List String)
    (backend : Nat → NetResult) (i : Nat) : Except ReqError String :=
  request_ai baseUrl (mk_chunk_payload baseUrl sysP prompt chunks.length i (chunks.getD i ""))
    (backend i)

/-- The fixed prefix of the merge instruction built by
`AIAgent.get_final_response`. -/
def MERGE_HEADER : String :=
  "Combine these partial summaries into a single, concise report for a network-engineering audience:\n\n"

/-- The empty-cache message of both `get_final_response` methods (the dash is
the en dash of the source). -/
def NO_SUMMARIES_MSG : String :=
  "No intermediate summaries found – call generate() first."

/-- `AIAgent.get_final_response`: on an empty summary list return
`(False, msg)` with no round trip; otherwise always issue one merge round
trip over `"\n---\n".join(summaries)` (this variant has no single-entry
shortcut). -/
def get_final_response (baseUrl sysP : String) (backend : Nat → NetResult)
    (c : Cache) (device user : String) : GenOut Payload :=
  let summaries := c user device
  if summaries = [] then
    ⟨Except.ok (false, NO_SUMMARIES_MSG), c, []⟩
  else
    let mergePrompt := MERGE_HEADER ++ joinWith "\n---\n" summaries
    let p := prepare_payload baseUrl sysP mergePrompt ""
    match request_ai baseUrl p (backend 0) with
    | Except.ok final => ⟨Except.ok (true, final), c, [p]⟩
    | Except.error (ReqError.agentError e) => ⟨Except.ok (false, e), c, [p]⟩
    | Except.error (ReqError.pyError e) => ⟨Except.error e, c, [p]⟩

end AIAgent

namespace CloudflareAIAgent

/-- `CloudflareAIAgent.CHUNK_CHAR_LEN`. -/
def CHUNK_CHAR_LEN : Nat := 6144

/-- The module-level `DEFAULT_SYSTEM_PROMPT` of CloudflareAiAgent.py
(a role dictionary; the Python source concatenates two adjacent string
literals). -/
def DEFAULT_SYSTEM_PROMPT : Msg :=
  Msg.role "system"
    "You are a senior network engineer. Provide feedback on network-device output."

/-- `CloudflareAIAgent._prepare_payload`: `[system_prompt, {"role": "user",
"content": user_prompt + '\n\n' + chunk}]`. -/
def prepare_payload (sysP : Msg) (userPrompt chunk : String) : List Msg :=
  [sysP, Msg.role "user" (userPrompt ++ "\n\n" ++ chunk)]

/-- `CloudflareAIAgent._request_ai` given the outcome of its round trip.
A transport error or a non-200 status raises `CloudflareAIAgentError`
(classified).  On HTTP 200 the code reads `data['result']['response']` with
no shape check, so a body missing either key raises an uncaught `KeyError`. -/
def request_ai (_prompt : List Msg) (net : NetResult) : Except ReqError String :=
  match net with
  | NetResult.exn _ =>
    Except.error (ReqError.agentError "Network error talking to Cloudflare LLM API")
  | NetResult.resp r =>
    if r.status ≠ 200 then
      Except.error (ReqError.agentError
        ("Cloudflare LLM API returned HTTPS " ++ toString r.status ++ ": " ++ pyTake r.text 120))
    else
      match r.json with
      | none => Except.error (ReqError.pyError "requests JSON decode error")
      | some data =>
        match data.result with
        | none => Except.error (ReqError.pyError "KeyError: 'result'")
        | some none => Except.error (ReqError.pyError "KeyError: 'response'")
        | some (some s) => Except.ok (pyStrip s)

/-- The payload `generate` builds for the 0-based chunk position `j`. -/
def mk_chunk_payload (sysP : Msg) (prompt : String) (total j : Nat) (chunk : String) : List Msg :=
  prepare_payload sysP
    (prompt ++ " (part " ++ toString (j + 1) ++ "/" ++ toString total ++ ")") chunk

/-- `CloudflareAIAgent.generate`: fixed-window chunking, then the same
dispatch loop as the other variant. -/
def generate (sysP : Msg) (backend : Nat → NetResult) (c : Cache)
    (device user rawOutput prompt : String) : GenOut (List Msg) :=
  let chunks := cfChunks rawOutput CHUNK_CHAR_LEN
  gen_loop request_ai (mk_chunk_payload sysP prompt chunks.length)
    backend user device 0 c [] chunks

/-- The outcome of the round trip `generate` performs for chunk `i` (0-based)
of the chunk list `chunks`. -/
def gen_step (sysP : Msg) (prompt : String) (chunks : List String)
    (backend : Nat → NetResult) (i : Nat) : Except ReqError String :=
  request_ai (mk_chunk_payload sysP prompt chunks.length i (chunks.getD i "")) (backend i)

/-- The fixed prefix of the merge instruction built by
`CloudflareAIAgent.get_final_response`. -/
def MERGE_HEADER : String :=
  "Use one or more summaries to combine into a single, concise report for a network-engineering audience. Do not omit important details.\n\n"

/-- `CloudflareAIAgent.get_final_response`: `(False, msg)` on an empty
summary list (no round trip); `(True, ''.join(summaries))` when there are
fewer than two entries (no round trip); otherwise one merge round trip over
`"\n---\n".join(summaries)`. -/
def get_final_response (sysP : Msg) (backend : Nat → NetResult)
    (c : Cache) (device user : String) : GenOut (List Msg) :=
  let summaries := c user device
  if summaries = [] then
    ⟨Except.ok (false, AIAgent.NO_SUMMARIES_MSG), c, []⟩
  else if summaries.length < 2 then
    ⟨Except.ok (true, joinWith "" summaries), c, []⟩
  else
    let mergePrompt := MERGE_HEADER ++ joinWith "\n---\n" summaries
    let p := prepare_payload sysP mergePrompt ""
    match request_ai p (backend 0) with
    | Except.ok final => ⟨Except.ok (true, final), c, [p]⟩
    | Except.error (ReqError.agentError e) => ⟨Except.ok (false, e), c, [p]⟩
    | Except.error (ReqError.pyError e) => ⟨Except.error e, c, [p]⟩

end CloudflareAIAgent

/- ------------------------------------------------------------------ -/
/- Concrete fixtures used by the claim witnesses.                       -/
/- ------------------------------------------------------------------ -/

/-- A cache holding exactly one summary, `"A"`, for key `("lab", "er11")`. -/
def oneEntryCache : Cache := fun u d => if u = "lab" ∧ d = "er11" then ["A"] else []

/-- A cache holding the two summaries `["A", "B"]` for key `("lab", "er11")`. -/
def twoEntryCache : Cache := fun u d => if u = "lab" ∧ d = "er11" then ["A", "B"] else []

/-- The untouched cache. -/
def emptyCache : Cache := fun _ _ => []

/-- A backend that always answers HTTP 200 with both adapter fields set to
`out`. -/
def okBackend (out : String) : Nat → NetResult :=
  fun _ => NetResult.resp ⟨200, "", some ⟨some out, some (some out)⟩⟩

/-- A backend that always answers HTTP 200 with a JSON body `{}` carrying
neither `output` nor `result`. -/
def missingFieldBackend : Nat → NetResult :=
  fun _ => NetResult.resp ⟨200, "{}", some ⟨none, none⟩⟩

/-- A backend whose first response succeeds (both fields `"s1"`) and whose
later responses are HTTP 500 with body `oops`. -/
def failAfterOneBackend : Nat → NetResult :=
  fun i => if i = 0 then NetResult.resp ⟨200, "", some ⟨some "s1", some (some "s1")⟩⟩
           else NetResult.resp ⟨500, "oops", none⟩

/-- 1600 copies of `a`: wraps into two chunks under `CHUNK_CHAR_LEN = 1500`. -/
def longRawA : String := String.mk (List.replicate 1600 'a')

/-- 6200 copies of `a`: slices into two windows under `CHUNK_CHAR_LEN = 6144`. -/
def longRawCF : String := String.mk (List.replicate 6200 'a')

/- ------------------------------------------------------------------ -/
/- Generic lemmas about the dispatch loop.                              -/
/- ------------------------------------------------------------------ -/

/-- The dispatch loop never touches the cache entry of a key other than the
one it was called for, whatever the backend does. -/
theorem gen_loop_cache_frame {π : Type} (request : π → NetResult → Except ReqError String)
    (mkp : Nat → String → π) (backend : Nat → NetResult) (user device : String) :
    ∀ (chunks : List String) (j : Nat) (c : Cache) (acc : List π) (u d : String),
      ¬(u = user ∧ d = device) →
      (gen_loop request mkp backend user device j c acc chunks).cache u d = c u d := by
  intro chunks
  induction chunks with
  | nil => intro j c acc u d h; rfl
  | cons chunk rest ih =>
    intro j c acc u d h
    show (gen_loop request mkp backend user device j c acc (chunk :: rest)).cache u d = c u d
    rw [gen_loop]
    cases hreq : request (mkp j chunk) (backend j) with
    | ok out =>
      simp only [hreq]
      rw [ih (j + 1) (cacheAppend c user device out) _ u d h]
      simp [cacheAppend, h]
    | error e =>
      cases e with
      | agentError m => simp only [hreq]
      | pyError m => simp only [hreq]

/-- If the requests for the first `outs.length` chunks succeed with the
summaries `outs` and the next request fails with a classified error `e`, the
dispatch loop stops there: it returns `(False, e)`, has sent exactly
`outs.length + 1` requests beyond `acc`, has appended exactly `outs` to the
cache entry of its own key, and has left every other key alone. -/
theorem gen_loop_fail {π : Type} (request : π → NetResult → Except ReqError String)
    (mkp : Nat → String → π) (backend : Nat → NetResult) (user device : String)
    (e : String) :
    ∀ (outs : List String) (rest : List String) (j : Nat) (c : Cache) (acc : List π),
      outs.length < rest.length →
      (∀ i (h : i < outs.length),
        request (mkp (j + i) (rest.getD i "")) (backend (j + i)) = Except.ok (outs.get ⟨i, h⟩)) →
      request (mkp (j + outs.length) (rest.getD outs.length "")) (backend (j + outs.length)) =
        Except.error (ReqError.agentError e) →
      (gen_loop request mkp backend user device j c acc rest).result = Except.ok (false, e) ∧
      (gen_loop request mkp backend user device j c acc rest).sent.length =
        acc.length + (outs.length + 1) ∧
      (gen_loop request mkp backend user device j c acc rest).cache user device =
        c user device ++ outs ∧
      (∀ u d, ¬(u = user ∧ d = device) →
        (gen_loop request mkp backend user device j c acc rest).cache u d = c u d) := by
  intro outs
  induction outs with
  | nil =>
    intro rest j c acc hlen hok hfail
    match rest, hlen with
    | r :: rest', _ =>
      simp only [List.length_nil, Nat.add_zero, List.getD_cons_zero] at hfail
      rw [gen_loop]
      simp [hfail]
  | cons o outs' ih =>
    intro rest j c acc hlen hok hfail
    match rest, hlen with
    | r :: rest', hlen =>
      have h0 : request (mkp j r) (backend j) = Except.ok o := by
        have := hok 0 (by simp)
        simpa using this
      rw [gen_loop]
      simp only [h0]
      have hok' : ∀ i (h : i < outs'.length),
          request (mkp ((j + 1) + i) (rest'.getD i "")) (backend ((j + 1) + i)) =
            Except.ok (outs'.get ⟨i, h⟩) := by
        intro i h
        have := hok (i + 1) (by simpa using Nat.succ_lt_succ h)
        have harith : j + (i + 1) = (j + 1) + i := by omega
        rw [harith] at this
        simpa using this
      have hfail' : request (mkp ((j + 1) + outs'.length) (rest'.getD outs'.length ""))
          (backend ((j + 1) + outs'.length)) = Except.error (ReqError.agentError e) := by
        have harith : j + (o :: outs').length = (j + 1) + outs'.length := by simp; omega
        rw [harith] at hfail
        simpa using hfail
      have hlen' : outs'.length < rest'.length := by simpa using hlen
      obtain ⟨ha, hb, hc, hd⟩ :=
        ih rest' (j + 1) (cacheAppend c user device o) (acc ++ [mkp j r]) hlen' hok' hfail'
      refine ⟨ha, ?_, ?_, ?_⟩
      · rw [hb]; simp; omega
      · rw [hc]; simp [cacheAppend]
      · intro u d h
        rw [hd u d h]
        simp [cacheAppend, h]

/- ------------------------------------------------------------------ -/
/- Lemmas about the fixed-window chunker.                               -/
/- ------------------------------------------------------------------ -/

theorem windowChunksAux_cons (n : Nat) (a : Char) (as : List Char) (f : Nat) :
    windowChunksAux n (a :: as) (f + 1) =
      List.take n (a :: as) :: windowChunksAux n (List.drop n (a :: as)) f := rfl

theorem windowChunksAux_flatten (n : Nat) (hn : 0 < n) :
    ∀ (fuel : Nat) (l : List Char), l.length ≤ fuel →
      (windowChunksAux n l fuel).flatten = l := by
  intro fuel
  induction fuel with
  | zero =>
    intro l hl
    have : l = [] := List.eq_nil_of_length_eq_zero (Nat.le_zero.mp hl)
    subst this; rfl
  | succ f ih =>
    intro l hl
    cases l with
    | nil => rfl
    | cons a as =>
      rw [windowChunksAux_cons]
      have hrec : (List.drop n (a :: as)).length ≤ f := by
        rw [List.length_drop]
        simp at hl ⊢
        omega
      simp only [List.flatten_cons, ih _ hrec, List.take_append_drop]

theorem windowChunksAux_length (n : Nat) (hn : 0 < n) :
    ∀ (fuel : Nat) (l : List Char), l.length ≤ fuel → l ≠ [] →
      (windowChunksAux n l fuel).length = (l.length + n - 1) / n := by
  intro fuel
  induction fuel with
  | zero =>
    intro l hl hne
    exact absurd (List.eq_nil_of_length_eq_zero (Nat.le_zero.mp hl)) hne
  | succ f ih =>
    intro l hl hne
    cases l with
    | nil => exact absurd rfl hne
    | cons a as =>
      rw [windowChunksAux_cons]
      by_cases hdrop : List.drop n (a :: as) = []
      · have hlen : (a :: as).length ≤ n := by
          have h2 := List.length_drop n (a :: as)
          rw [hdrop] at h2
          simp only [List.length_nil] at h2
          simp only [List.length_cons] at h2 ⊢
          omega
        have hone : ((a :: as).length + n - 1) / n = 1 := by
          apply Nat.div_eq_of_lt_le
          · simp only [List.length_cons]; omega
          · simp only [List.length_cons] at hlen ⊢; omega
        have hnil : windowChunksAux n [] f = [] := by cases f <;> rfl
        rw [hdrop, hone, hnil]
        rfl
      · have hgt : n < (a :: as).length := by
          by_contra hle
          exact hdrop (List.drop_eq_nil_of_le (by omega))
        have hrec : (List.drop n (a :: as)).length ≤ f := by
          rw [List.length_drop]
          simp only [List.length_cons] at hl hgt ⊢
          omega
        rw [List.length_cons, ih _ hrec hdrop, List.length_drop]
        have harith : (a :: as).length + n - 1 = ((a :: as).length - n + n - 1) + n := by
          omega
        rw [harith, Nat.add_div_right _ hn]

theorem windowChunksAux_dropLast_length (n : Nat) (hn : 0 < n) :
    ∀ (fuel : Nat) (l : List Char), l.length ≤ fuel →
      ∀ ck ∈ (windowChunksAux n l fuel).dropLast, ck.length = n := by
  intro fuel
  induction fuel with
  | zero =>
    intro l hl ck hck
    have : l = [] := List.eq_nil_of_length_eq_zero (Nat.le_zero.mp hl)
    subst this
    simp [windowChunksAux] at hck
  | succ f ih =>
    intro l hl ck hck
    cases l with
    | nil => simp [windowChunksAux] at hck
    | cons a as =>
      rw [windowChunksAux_cons] at hck
      by_cases hdrop : List.drop n (a :: as) = []
      · rw [hdrop] at hck
        have : windowChunksAux n [] f = [] := by cases f <;> rfl
        rw [this] at hck
        simp at hck
      · have hgt : n < (a :: as).length := by
          by_contra hle
          exact hdrop (List.drop_eq_nil_of_le (by omega))
        have hrec : (List.drop n (a :: as)).length ≤ f := by
          rw [List.length_drop]
          simp only [List.length_cons] at hl hgt ⊢
          omega
        have hne : windowChunksAux n (List.drop n (a :: as)) f ≠ [] := by
          cases hf : List.drop n (a :: as) with
          | nil => exact absurd hf hdrop
          | cons b bs =>
            cases f with
            | zero =>
              rw [hf] at hrec
              simp at hrec
            | succ f' =>
              rw [windowChunksAux_cons]
              simp
        rw [List.dropLast_cons_of_ne_nil hne] at hck
        rcases List.mem_cons.mp hck with h | h
        · subst h
          rw [List.length_take]
          omega
        · exact ih _ hrec ck h

theorem foldl_append_mk : ∀ (ll : List (List Char)) (acc : List Char),
    (ll.map String.mk).foldl (fun r s => r ++ s) (String.mk acc) = String.mk (acc ++ ll.flatten) := by
  intro ll
  induction ll with
  | nil => intro acc; simp
  | cons l ls ih =>
    intro acc
    have h1 : String.mk acc ++ String.mk l = String.mk (acc ++ l) := rfl
    simp only [List.map_cons, List.foldl_cons, h1, ih, List.flatten_cons, List.append_assoc]

theorem join_map_mk (ll : List (List Char)) :
    String.join (ll.map String.mk) = String.mk ll.flatten := by
  have h0 : ("" : String) = String.mk [] := rfl
  rw [String.join, h0, foldl_append_mk]
  rfl

/-- `cfChunks` splits a nonempty text that fits in one window into exactly
that text. -/
theorem cfChunks_single (s : String) (n : Nat) (hne : s ≠ "") (hle : s.length ≤ n) :
    cfChunks s n = [s] := by
  have hdata : s.data ≠ [] := by
    intro h
    apply hne
    have hs : s = String.mk s.data := rfl
    rw [hs, h]
  match hd : s.data, hdata with
  | a :: as, _ =>
    have hlen : s.length = (a :: as).length := by rw [← hd]; rfl
    rw [cfChunks, hd]
    rw [List.length_cons, windowChunksAux_cons]
    have hdrop : List.drop n (a :: as) = [] := by
      apply List.drop_eq_nil_of_le
      rw [← hlen]
      exact hle
    have htake : List.take n (a :: as) = a :: as := by
      apply List.take_of_length_le
      rw [← hlen]
      exact hle
    have hnil : windowChunksAux n [] as.length = [] := by cases as <;> rfl
    rw [hdrop, htake, hnil]
    have : String.mk (a :: as) = s := by rw [← hd]
    rw [List.map_cons, List.map_nil, this]

/- ------------------------------------------------------------------ -/
/- Claim C3.                                                            -/
/- ------------------------------------------------------------------ -/

/-- C3 counterexample.  The claim "for every text of length L ≤ maxLen the
chunker returns exactly one chunk equal to the input, under both splitting
policies" is false: under the word-wrap policy (`textwrap.wrap`),
`"a\nb"` (length 3) comes back as the single *different* chunk `"a b"`
(whitespace is normalized), `" "` (length 1) comes back as zero chunks, and
under the fixed-window policy the empty text also yields zero chunks. -/
theorem c3_counterexample :
    ("a\nb".length ≤ 1500 ∧ textwrapWrap "a\nb" 1500 ≠ ["a\nb"] ∧
      textwrapWrap "a\nb" 1500 = ["a b"]) ∧
    (" ".length ≤ 1500 ∧ textwrapWrap " " 1500 = []) ∧
    ("".length ≤ 6144 ∧ cfChunks "" 6144 = []) := by
  decide

/-- C3 (amended): under the fixed-window policy (CloudflareAIAgent), every
NONEMPTY text of length L ≤ maxLen is returned as exactly one chunk equal to
the input; the word-wrap policy does not satisfy the claim. -/
theorem c3_single_chunk_fixed_window (s : String) (n : Nat)
    (hne : s ≠ "") (hle : s.length ≤ n) :
    cfChunks s n = [s] :=
  cfChunks_single s n hne hle

/-- C3 witness: a concrete nonempty text below the window size. -/
theorem c3_witness :
    ("abc" ≠ "" ∧ "abc".length ≤ 6144) ∧ cfChunks "abc" 6144 = ["abc"] :=
  ⟨by decide, c3_single_chunk_fixed_window "abc" 6144 (by decide) (by decide)⟩

/- ------------------------------------------------------------------ -/
/- Claim C5.                                                            -/
/- ------------------------------------------------------------------ -/

/-- C5: under the fixed-window policy, a text longer than the window size is
split into exactly `⌈L / maxLen⌉` chunks, every chunk except possibly the
last has length exactly `maxLen`, and concatenating the chunks in order with
no separator reconstructs the text exactly. -/
theorem c5_fixed_window_properties (s : String) (n : Nat) (hn : 0 < n) (hL : n < s.length) :
    (cfChunks s n).length = (s.length + n - 1) / n ∧
    (∀ ck ∈ (cfChunks s n).dropLast, ck.length = n) ∧
    String.join (cfChunks s n) = s := by
  have hlen : s.length = s.data.length := rfl
  have hne : s.data ≠ [] := by
    intro h
    rw [hlen, h] at hL
    simp at hL
  refine ⟨?_, ?_, ?_⟩
  · rw [cfChunks, List.length_map,
      windowChunksAux_length n hn s.data.length s.data (le_refl _) hne, hlen]
  · intro ck hck
    rw [cfChunks, ← List.map_dropLast] at hck
    obtain ⟨l', hl', rfl⟩ := List.mem_map.mp hck
    have hmk : (String.mk l').length = l'.length := rfl
    rw [hmk]
    exact windowChunksAux_dropLast_length n hn s.data.length s.data (le_refl _) l' hl'
  · rw [cfChunks, join_map_mk, windowChunksAux_flatten n hn s.data.length s.data (le_refl _)]

/-- C5 witness: `"abcdefg"` with window 3 gives `⌈7/3⌉ = 3` chunks, the first
two of length 3, reassembling to the input. -/
theorem c5_witness :
    (0 < 3 ∧ 3 < "abcdefg".length) ∧
    ((cfChunks "abcdefg" 3).length = ("abcdefg".length + 3 - 1) / 3 ∧
      (∀ ck ∈ (cfChunks "abcdefg" 3).dropLast, ck.length = 3) ∧
      String.join (cfChunks "abcdefg" 3) = "abcdefg") :=
  ⟨by decide, c5_fixed_window_properties "abcdefg" 3 (by decide) (by decide)⟩

/- ------------------------------------------------------------------ -/
/- Claim C4.                                                            -/
/- ------------------------------------------------------------------ -/

/-- C4: in both backend variants, when the round trip for chunk `k`
(= `outs.length + 1`, 1-based) of a multi-chunk `generate` call fails with a
classified failure `e` after the first `k - 1` chunks succeeded with the
summaries `outs`, then `generate` sends no request for any later chunk
(exactly `k` requests in total), returns `(False, e)`, keeps the `k - 1`
summaries already appended to the caller's cache entry (no rollback), and
leaves every other cache entry unchanged. -/
theorem c4_classified_failure_aborts :
    (∀ (baseUrl sysP : String) (backend : Nat → NetResult) (c : Cache)
       (device user raw prompt e : String) (outs : List String),
       outs.length < (textwrapWrap raw AIAgent.CHUNK_CHAR_LEN).length →
       (∀ i (h : i < outs.length),
         AIAgent.gen_step baseUrl sysP prompt (textwrapWrap raw AIAgent.CHUNK_CHAR_LEN)
             backend i = Except.ok (outs.get ⟨i, h⟩)) →
       AIAgent.gen_step baseUrl sysP prompt (textwrapWrap raw AIAgent.CHUNK_CHAR_LEN)
           backend outs.length = Except.error (ReqError.agentError e) →
       (AIAgent.generate baseUrl sysP backend c device user raw prompt).result =
           Except.ok (false, e) ∧
       (AIAgent.generate baseUrl sysP backend c device user raw prompt).sent.length =
           outs.length + 1 ∧
       (AIAgent.generate baseUrl sysP backend c device user raw prompt).cache user device =
           c user device ++ outs ∧
       (∀ u d, ¬(u = user ∧ d = device) →
         (AIAgent.generate baseUrl sysP backend c device user raw prompt).cache u d = c u d)) ∧
    (∀ (sysP : Msg) (backend : Nat → NetResult) (c : Cache)
       (device user raw prompt e : String) (outs : List String),
       outs.length < (cfChunks raw CloudflareAIAgent.CHUNK_CHAR_LEN).length →
       (∀ i (h : i < outs.length),
         CloudflareAIAgent.gen_step sysP prompt (cfChunks raw CloudflareAIAgent.CHUNK_CHAR_LEN)
             backend i = Except.ok (outs.get ⟨i, h⟩)) →
       CloudflareAIAgent.gen_step sysP prompt (cfChunks raw CloudflareAIAgent.CHUNK_CHAR_LEN)
           backend outs.length = Except.error (ReqError.agentError e) →
       (CloudflareAIAgent.generate sysP backend c device user raw prompt).result =
           Except.ok (false, e) ∧
       (CloudflareAIAgent.generate sysP backend c device user raw prompt).sent.length =
           outs.length + 1 ∧
       (CloudflareAIAgent.generate sysP backend c device user raw prompt).cache user device =
           c user device ++ outs ∧
       (∀ u d, ¬(u = user ∧ d = device) →
         (CloudflareAIAgent.generate sysP backend c device user raw prompt).cache u d = c u d)) := by
  constructor
  · intro baseUrl sysP backend c device user raw prompt e outs hlen hok hfail
    have hgen : AIAgent.generate baseUrl sysP backend c device user raw prompt =
        gen_loop (AIAgent.request_ai baseUrl)
          (AIAgent.mk_chunk_payload baseUrl sysP prompt
            (textwrapWrap raw AIAgent.CHUNK_CHAR_LEN).length)
          backend user device 0 c [] (textwrapWrap raw AIAgent.CHUNK_CHAR_LEN) := rfl
    have hok' : ∀ i (h : i < outs.length),
        AIAgent.request_ai baseUrl
          (AIAgent.mk_chunk_payload baseUrl sysP prompt
            (textwrapWrap raw AIAgent.CHUNK_CHAR_LEN).length (0 + i)
            ((textwrapWrap raw AIAgent.CHUNK_CHAR_LEN).getD i ""))
          (backend (0 + i)) = Except.ok (outs.get ⟨i, h⟩) := by
      intro i h
      rw [Nat.zero_add]
      exact hok i h
    have hfail' : AIAgent.request_ai baseUrl
        (AIAgent.mk_chunk_payload baseUrl sysP prompt
          (textwrapWrap raw AIAgent.CHUNK_CHAR_LEN).length (0 + outs.length)
          ((textwrapWrap raw AIAgent.CHUNK_CHAR_LEN).getD outs.length ""))
        (backend (0 + outs.length)) = Except.error (ReqError.agentError e) := by
      rw [Nat.zero_add]
      exact hfail
    obtain ⟨h1, h2, h3, h4⟩ :=
      gen_loop_fail (AIAgent.request_ai baseUrl)
        (AIAgent.mk_chunk_payload baseUrl sysP prompt
          (textwrapWrap raw AIAgent.CHUNK_CHAR_LEN).length)
        backend user device e outs (textwrapWrap raw AIAgent.CHUNK_CHAR_LEN) 0 c []
        hlen hok' hfail'
    rw [hgen]
    refine ⟨h1, ?_, h3, h4⟩
    rw [h2]
    simp
  · intro sysP backend c device user raw prompt e outs hlen hok hfail
    have hgen : CloudflareAIAgent.generate sysP backend c device user raw prompt =
        gen_loop CloudflareAIAgent.request_ai
          (CloudflareAIAgent.mk_chunk_payload sysP prompt
            (cfChunks raw CloudflareAIAgent.CHUNK_CHAR_LEN).length)
          backend user device 0 c [] (cfChunks raw CloudflareAIAgent.CHUNK_CHAR_LEN) := rfl
    have hok' : ∀ i (h : i < outs.length),
        CloudflareAIAgent.request_ai
          (CloudflareAIAgent.mk_chunk_payload sysP prompt
            (cfChunks raw CloudflareAIAgent.CHUNK_CHAR_LEN).length (0 + i)
            ((cfChunks raw CloudflareAIAgent.CHUNK_CHAR_LEN).getD i ""))
          (backend (0 + i)) = Except.ok (outs.get ⟨i, h⟩) := by
      intro i h
      rw [Nat.zero_add]
      exact hok i h
    have hfail' : CloudflareAIAgent.request_ai
        (CloudflareAIAgent.mk_chunk_payload sysP prompt
          (cfChunks raw CloudflareAIAgent.CHUNK_CHAR_LEN).length (0 + outs.length)
          ((cfChunks raw CloudflareAIAgent.CHUNK_CHAR_LEN).getD outs.length ""))
        (backend (0 + outs.length)) = Except.error (ReqError.agentError e) := by
      rw [Nat.zero_add]
      exact hfail
    obtain ⟨h1, h2, h3, h4⟩ :=
      gen_loop_fail CloudflareAIAgent.request_ai
        (CloudflareAIAgent.mk_chunk_payload sysP prompt
          (cfChunks raw CloudflareAIAgent.CHUNK_CHAR_LEN).length)
        backend user device e outs (cfChunks raw CloudflareAIAgent.CHUNK_CHAR_LEN) 0 c []
        hlen hok' hfail'
    rw [hgen]
    refine ⟨h1, ?_, h3, h4⟩
    rw [h2]
    simp

set_option maxRecDepth 100000 in
/-- C4 witness: concrete two-chunk runs (1600 chars against window 1500 and
6200 chars against window 6144) in which chunk 1 succeeds with summary `"s1"`
and chunk 2 hits HTTP 500: both variants stop after 2 requests, return the
classified reason, and keep `"s1"` in the cache. -/
theorem c4_witness :
    ((AIAgent.generate "http://h" "" failAfterOneBackend emptyCache "d" "u" longRawA "p").result =
        Except.ok (false, "LLM API returned HTTP 500: oops") ∧
      (AIAgent.generate "http://h" "" failAfterOneBackend emptyCache "d" "u" longRawA "p").sent.length = 2 ∧
      (AIAgent.generate "http://h" "" failAfterOneBackend emptyCache "d" "u" longRawA "p").cache "u" "d" = ["s1"]) ∧
    ((CloudflareAIAgent.generate CloudflareAIAgent.DEFAULT_SYSTEM_PROMPT failAfterOneBackend
          emptyCache "d" "u" longRawCF "p").result =
        Except.ok (false, "Cloudflare LLM API returned HTTPS 500: oops") ∧
      (CloudflareAIAgent.generate CloudflareAIAgent.DEFAULT_SYSTEM_PROMPT failAfterOneBackend
          emptyCache "d" "u" longRawCF "p").sent.length = 2 ∧
      (CloudflareAIAgent.generate CloudflareAIAgent.DEFAULT_SYSTEM_PROMPT failAfterOneBackend
          emptyCache "d" "u" longRawCF "p").cache "u" "d" = ["s1"]) := by
  constructor
  · obtain ⟨h1, h2, h3, _⟩ :=
      c4_classified_failure_aborts.1 "http://h" "" failAfterOneBackend emptyCache "d" "u"
        longRawA "p" "LLM API returned HTTP 500: oops" ["s1"]
        (by decide)
        (by
          intro i h
          have h1 : i < 1 := by simpa using h
          have hi : i = 0 := by omega
          subst hi
          show AIAgent.gen_step "http://h" "" "p" (textwrapWrap longRawA AIAgent.CHUNK_CHAR_LEN)
              failAfterOneBackend 0 = Except.ok "s1"
          decide)
        (by decide)
    exact ⟨h1, h2, by rw [h3]; rfl⟩
  · have hlenCF : (cfChunks longRawCF CloudflareAIAgent.CHUNK_CHAR_LEN).length = 2 := by
      have h1 : longRawCF.data = List.replicate 6200 'a' := rfl
      have h2 : CloudflareAIAgent.CHUNK_CHAR_LEN = 6144 := rfl
      have hne : List.replicate 6200 'a' ≠ [] := by
        intro h
        have hlen := congrArg List.length h
        rw [List.length_replicate] at hlen
        simp at hlen
      rw [cfChunks, List.length_map, h1, h2]
      rw [windowChunksAux_length 6144 (by norm_num) (List.replicate 6200 'a').length
        (List.replicate 6200 'a') (le_refl _) hne]
      rw [List.length_replicate]
    obtain ⟨h1, h2, h3, _⟩ :=
      c4_classified_failure_aborts.2 CloudflareAIAgent.DEFAULT_SYSTEM_PROMPT failAfterOneBackend
        emptyCache "d" "u" longRawCF "p" "Cloudflare LLM API returned HTTPS 500: oops" ["s1"]
        (by rw [hlenCF]; norm_num)
        (by
          intro i h
          have h1 : i < 1 := by simpa using h
          have hi : i = 0 := by omega
          subst hi
          show CloudflareAIAgent.gen_step CloudflareAIAgent.DEFAULT_SYSTEM_PROMPT "p"
              (cfChunks longRawCF CloudflareAIAgent.CHUNK_CHAR_LEN) failAfterOneBackend 0 =
              Except.ok "s1"
          decide)
        (by decide)
    exact ⟨h1, h2, by rw [h3]; rfl⟩

/- ------------------------------------------------------------------ -/
/- Lemmas about get_final_response.                                     -/
/- ------------------------------------------------------------------ -/

/-- `AIAgent.get_final_response` returns the cache unchanged, in every
branch. -/
theorem aia_gfr_cache (baseUrl sysP : String) (backend : Nat → NetResult)
    (c : Cache) (device user : String) :
    (AIAgent.get_final_response baseUrl sysP backend c device user).cache = c := by
  simp only [AIAgent.get_final_response]
  by_cases h1 : c user device = []
  · rw [if_pos h1]
  · rw [if_neg h1]
    cases hreq : AIAgent.request_ai baseUrl
        (AIAgent.prepare_payload baseUrl sysP
          (AIAgent.MERGE_HEADER ++ joinWith "\n---\n" (c user device)) "")
        (backend 0) with
    | ok v => rfl
    | error e => cases e <;> rfl

/-- On a nonempty summary list, `AIAgent.get_final_response` sends exactly
the one merge payload, whatever the outcome. -/
theorem aia_gfr_sent (baseUrl sysP : String) (backend : Nat → NetResult)
    (c : Cache) (device user : String) (hne : c user device ≠ []) :
    (AIAgent.get_final_response baseUrl sysP backend c device user).sent =
      [AIAgent.prepare_payload baseUrl sysP
        (AIAgent.MERGE_HEADER ++ joinWith "\n---\n" (c user device)) ""] := by
  simp only [AIAgent.get_final_response]
  rw [if_neg hne]
  cases hreq : AIAgent.request_ai baseUrl
      (AIAgent.prepare_payload baseUrl sysP
        (AIAgent.MERGE_HEADER ++ joinWith "\n---\n" (c user device)) "")
      (backend 0) with
  | ok v => rfl
  | error e => cases e <;> rfl

/-- `CloudflareAIAgent.get_final_response` returns the cache unchanged, in
every branch. -/
theorem cf_gfr_cache (sysPm : Msg) (backend : Nat → NetResult)
    (c : Cache) (device user : String) :
    (CloudflareAIAgent.get_final_response sysPm backend c device user).cache = c := by
  simp only [CloudflareAIAgent.get_final_response]
  by_cases h1 : c user device = []
  · rw [if_pos h1]
  · rw [if_neg h1]
    by_cases h2 : (c user device).length < 2
    · rw [if_pos h2]
    · rw [if_neg h2]
      cases hreq : CloudflareAIAgent.request_ai
          (CloudflareAIAgent.prepare_payload sysPm
            (CloudflareAIAgent.MERGE_HEADER ++ joinWith "\n---\n" (c user device)) "")
          (backend 0) with
      | ok v => rfl
      | error e => cases e <;> rfl

/-- On two or more summaries, `CloudflareAIAgent.get_final_response` sends
exactly the one merge payload, whatever the outcome. -/
theorem cf_gfr_sent (sysPm : Msg) (backend : Nat → NetResult)
    (c : Cache) (device user : String) (hge : 2 ≤ (c user device).length) :
    (CloudflareAIAgent.get_final_response sysPm backend c device user).sent =
      [CloudflareAIAgent.prepare_payload sysPm
        (CloudflareAIAgent.MERGE_HEADER ++ joinWith "\n---\n" (c user device)) ""] := by
  have hne : ¬(c user device = []) := by
    intro h
    rw [h] at hge
    simp at hge
  have hlt : ¬((c user device).length < 2) := by omega
  simp only [CloudflareAIAgent.get_final_response]
  rw [if_neg hne, if_neg hlt]
  cases hreq : CloudflareAIAgent.request_ai
      (CloudflareAIAgent.prepare_payload sysPm
        (CloudflareAIAgent.MERGE_HEADER ++ joinWith "\n---\n" (c user device)) "")
      (backend 0) with
  | ok v => rfl
  | error e => cases e <;> rfl

/- ------------------------------------------------------------------ -/
/- Claim C7.                                                            -/
/- ------------------------------------------------------------------ -/

/-- C7: in both backend variants, `get_final_response` on a key whose cached
summary sequence is empty returns `(False, msg)` and performs zero backend
round trips. -/
theorem c7_empty_cache_no_call (baseUrl sysP : String) (sysPm : Msg)
    (backend backend2 : Nat → NetResult) (c c2 : Cache) (device user : String)
    (hc : c user device = []) (hc2 : c2 user device = []) :
    (AIAgent.get_final_response baseUrl sysP backend c device user).result =
        Except.ok (false, AIAgent.NO_SUMMARIES_MSG) ∧
    (AIAgent.get_final_response baseUrl sysP backend c device user).sent = [] ∧
    (CloudflareAIAgent.get_final_response sysPm backend2 c2 device user).result =
        Except.ok (false, AIAgent.NO_SUMMARIES_MSG) ∧
    (CloudflareAIAgent.get_final_response sysPm backend2 c2 device user).sent = [] := by
  refine ⟨?_, ?_, ?_, ?_⟩ <;>
    simp [AIAgent.get_final_response, CloudflareAIAgent.get_final_response, hc, hc2]

/-- C7 witness: the untouched cache. -/
theorem c7_witness :
    (emptyCache "lab" "er11" = [] ∧ emptyCache "lab" "er11" = []) ∧
    ((AIAgent.get_final_response "http://h" AIAgent.DEFAULT_SYSTEM_PROMPT (okBackend "s")
        emptyCache "er11" "lab").result = Except.ok (false, AIAgent.NO_SUMMARIES_MSG) ∧
      (AIAgent.get_final_response "http://h" AIAgent.DEFAULT_SYSTEM_PROMPT (okBackend "s")
        emptyCache "er11" "lab").sent = [] ∧
      (CloudflareAIAgent.get_final_response CloudflareAIAgent.DEFAULT_SYSTEM_PROMPT (okBackend "s")
        emptyCache "er11" "lab").result = Except.ok (false, AIAgent.NO_SUMMARIES_MSG) ∧
      (CloudflareAIAgent.get_final_response CloudflareAIAgent.DEFAULT_SYSTEM_PROMPT (okBackend "s")
        emptyCache "er11" "lab").sent = []) :=
  ⟨⟨rfl, rfl⟩,
    c7_empty_cache_no_call "http://h" AIAgent.DEFAULT_SYSTEM_PROMPT
      CloudflareAIAgent.DEFAULT_SYSTEM_PROMPT (okBackend "s") (okBackend "s")
      emptyCache emptyCache "er11" "lab" rfl rfl⟩

/- ------------------------------------------------------------------ -/
/- Claim C8.                                                            -/
/- ------------------------------------------------------------------ -/

/-- C8: in both backend variants, a `generate` call under key
`(user, device)` leaves the cached summary sequence of any different key
`(u2, d2)` unchanged, whatever the call's outcome. -/
theorem c8_cache_isolation (baseUrl sysP : String) (sysPm : Msg)
    (backend backend2 : Nat → NetResult) (c c2 : Cache)
    (device user raw raw2 prompt prompt2 u2 d2 : String)
    (hne : (u2, d2) ≠ (user, device)) :
    (AIAgent.generate baseUrl sysP backend c device user raw prompt).cache u2 d2 = c u2 d2 ∧
    (CloudflareAIAgent.generate sysPm backend2 c2 device user raw2 prompt2).cache u2 d2 =
      c2 u2 d2 := by
  have h : ¬(u2 = user ∧ d2 = device) := by
    rintro ⟨ha, hb⟩
    exact hne (by rw [ha, hb])
  constructor
  · have hgen : AIAgent.generate baseUrl sysP backend c device user raw prompt =
        gen_loop (AIAgent.request_ai baseUrl)
          (AIAgent.mk_chunk_payload baseUrl sysP prompt
            (textwrapWrap raw AIAgent.CHUNK_CHAR_LEN).length)
          backend user device 0 c [] (textwrapWrap raw AIAgent.CHUNK_CHAR_LEN) := rfl
    rw [hgen]
    exact gen_loop_cache_frame _ _ backend user device _ 0 c [] u2 d2 h
  · have hgen : CloudflareAIAgent.generate sysPm backend2 c2 device user raw2 prompt2 =
        gen_loop CloudflareAIAgent.request_ai
          (CloudflareAIAgent.mk_chunk_payload sysPm prompt2
            (cfChunks raw2 CloudflareAIAgent.CHUNK_CHAR_LEN).length)
          backend2 user device 0 c2 [] (cfChunks raw2 CloudflareAIAgent.CHUNK_CHAR_LEN) := rfl
    rw [hgen]
    exact gen_loop_cache_frame _ _ backend2 user device _ 0 c2 [] u2 d2 h

/-- C8 witness: a concrete distinct key is untouched by a concrete
`generate` run. -/
theorem c8_witness :
    (("lab", "er11") ≠ ("u", "d")) ∧
    ((AIAgent.generate "http://h" "" (okBackend "s") oneEntryCache "d" "u" "hi" "p").cache
        "lab" "er11" = oneEntryCache "lab" "er11" ∧
      (CloudflareAIAgent.generate CloudflareAIAgent.DEFAULT_SYSTEM_PROMPT (okBackend "s")
        oneEntryCache "d" "u" "hi" "p").cache "lab" "er11" = oneEntryCache "lab" "er11") :=
  ⟨by decide,
    c8_cache_isolation "http://h" "" CloudflareAIAgent.DEFAULT_SYSTEM_PROMPT
      (okBackend "s") (okBackend "s") oneEntryCache oneEntryCache
      "d" "u" "hi" "hi" "p" "p" "lab" "er11" (by decide)⟩

/- ------------------------------------------------------------------ -/
/- Claim C10.                                                           -/
/- ------------------------------------------------------------------ -/

/-- C10: in both backend variants, `get_final_response` never modifies the
cache (the merged report is not appended), and whenever a key holds at
least two summaries, each `get_final_response` call on it issues exactly one
fresh merge round trip — so, the cache being unchanged, every later call does
so again. -/
theorem c10_get_final_response_pure (baseUrl sysP : String) (sysPm : Msg)
    (backend backend2 : Nat → NetResult) (c c2 : Cache) (device user : String) :
    (AIAgent.get_final_response baseUrl sysP backend c device user).cache = c ∧
    (CloudflareAIAgent.get_final_response sysPm backend2 c2 device user).cache = c2 ∧
    (2 ≤ (c user device).length →
      (AIAgent.get_final_response baseUrl sysP backend c device user).sent.length = 1) ∧
    (2 ≤ (c2 user device).length →
      (CloudflareAIAgent.get_final_response sysPm backend2 c2 device user).sent.length = 1) := by
  refine ⟨aia_gfr_cache baseUrl sysP backend c device user,
    cf_gfr_cache sysPm backend2 c2 device user, ?_, ?_⟩
  · intro hge
    have hne : c user device ≠ [] := by
      intro h
      rw [h] at hge
      simp at hge
    rw [aia_gfr_sent baseUrl sysP backend c device user hne]
    rfl
  · intro hge
    rw [cf_gfr_sent sysPm backend2 c2 device user hge]
    rfl

/-- C10 witness: a two-entry key keeps its entries and triggers exactly one
merge request in both variants. -/
theorem c10_witness :
    (2 ≤ (twoEntryCache "lab" "er11").length ∧ 2 ≤ (twoEntryCache "lab" "er11").length) ∧
    ((AIAgent.get_final_response "http://h" AIAgent.DEFAULT_SYSTEM_PROMPT (okBackend "s")
        twoEntryCache "er11" "lab").cache = twoEntryCache ∧
      (CloudflareAIAgent.get_final_response CloudflareAIAgent.DEFAULT_SYSTEM_PROMPT (okBackend "s")
        twoEntryCache "er11" "lab").cache = twoEntryCache ∧
      (AIAgent.get_final_response "http://h" AIAgent.DEFAULT_SYSTEM_PROMPT (okBackend "s")
        twoEntryCache "er11" "lab").sent.length = 1 ∧
      (CloudflareAIAgent.get_final_response CloudflareAIAgent.DEFAULT_SYSTEM_PROMPT (okBackend "s")
        twoEntryCache "er11" "lab").sent.length = 1) := by
  have h := c10_get_final_response_pure "http://h" AIAgent.DEFAULT_SYSTEM_PROMPT
    CloudflareAIAgent.DEFAULT_SYSTEM_PROMPT (okBackend "s") (okBackend "s")
    twoEntryCache twoEntryCache "er11" "lab"
  exact ⟨⟨by decide, by decide⟩, h.1, h.2.1, h.2.2.1 (by decide), h.2.2.2 (by decide)⟩

/- ------------------------------------------------------------------ -/
/- Claim C6.                                                            -/
/- ------------------------------------------------------------------ -/

set_option maxRecDepth 100000 in
/-- C6: when a key's cache holds exactly `["A", "B"]`, the merge instruction
sent by `get_final_response` contains the literal delimiter `"\n---\n"`
exactly once, between `"A"` and `"B"`, in both backend variants (shown for
the default-configured agents, whose system prompts are delimiter-free). -/
theorem c6_merge_delimiter (backend backend2 : Nat → NetResult) (user device : String) :
    (AIAgent.get_final_response "http://host:5000" AIAgent.DEFAULT_SYSTEM_PROMPT backend
        (fun u d => if u = user ∧ d = device then ["A", "B"] else []) device user).sent =
      [Payload.completion ("<s>[INST] " ++ AIAgent.DEFAULT_SYSTEM_PROMPT ++
        (AIAgent.MERGE_HEADER ++ ("A" ++ "\n---\n" ++ "B")) ++ "\n\n" ++ "" ++ " [/INST]")] ∧
    countOccur ("<s>[INST] " ++ AIAgent.DEFAULT_SYSTEM_PROMPT ++
      (AIAgent.MERGE_HEADER ++ ("A" ++ "\n---\n" ++ "B")) ++ "\n\n" ++ "" ++ " [/INST]")
      "\n---\n" = 1 ∧
    (CloudflareAIAgent.get_final_response CloudflareAIAgent.DEFAULT_SYSTEM_PROMPT backend2
        (fun u d => if u = user ∧ d = device then ["A", "B"] else []) device user).sent =
      [[CloudflareAIAgent.DEFAULT_SYSTEM_PROMPT,
        Msg.role "user" ((CloudflareAIAgent.MERGE_HEADER ++ ("A" ++ "\n---\n" ++ "B")) ++
          "\n\n" ++ "")]] ∧
    countOccur ((CloudflareAIAgent.MERGE_HEADER ++ ("A" ++ "\n---\n" ++ "B")) ++ "\n\n" ++ "")
      "\n---\n" = 1 := by
  have hc2 : (if user = user ∧ device = device then (["A", "B"] : List String) else []) =
      ["A", "B"] := by simp
  refine ⟨?_, by decide, ?_, by decide⟩
  · rw [aia_gfr_sent "http://host:5000" AIAgent.DEFAULT_SYSTEM_PROMPT backend
      (fun u d => if u = user ∧ d = device then ["A", "B"] else []) device user
      (by simp)]
    rw [hc2]
    decide
  · rw [cf_gfr_sent CloudflareAIAgent.DEFAULT_SYSTEM_PROMPT backend2
      (fun u d => if u = user ∧ d = device then ["A", "B"] else []) device user
      (by simp)]
    rw [hc2]
    decide

/- ------------------------------------------------------------------ -/
/- Claim C1 (code-bug evidence).                                        -/
/- ------------------------------------------------------------------ -/

/-- C1 evidence.  With exactly one cached summary `"A"` for the key,
`CloudflareAIAgent.get_final_response` returns `(True, "A")` with zero
backend round trips as claimed, but `AIAgent.get_final_response` performs
one merge round trip and returns the backend's reply (`"MERGED"`), not the
cached entry: the single-entry shortcut exists only in the Cloudflare
variant, contradicting the claim for the other variant. -/
theorem c1_single_entry_not_uniform :
    (AIAgent.get_final_response "http://h" AIAgent.DEFAULT_SYSTEM_PROMPT (okBackend "MERGED")
        oneEntryCache "er11" "lab").sent.length = 1 ∧
    (AIAgent.get_final_response "http://h" AIAgent.DEFAULT_SYSTEM_PROMPT (okBackend "MERGED")
        oneEntryCache "er11" "lab").result = Except.ok (true, "MERGED") ∧
    (CloudflareAIAgent.get_final_response CloudflareAIAgent.DEFAULT_SYSTEM_PROMPT
        (okBackend "MERGED") oneEntryCache "er11" "lab").sent = [] ∧
    (CloudflareAIAgent.get_final_response CloudflareAIAgent.DEFAULT_SYSTEM_PROMPT
        (okBackend "MERGED") oneEntryCache "er11" "lab").result = Except.ok (true, "A") := by
  refine ⟨?_, ?_, ?_, ?_⟩ <;> decide

/- ------------------------------------------------------------------ -/
/- Claim C2 (code-bug evidence).                                        -/
/- ------------------------------------------------------------------ -/

/-- C2 evidence.  On an HTTP 200 response whose body lacks the
adapter-required field, `AIAgent.generate` (Completion variant) returns
`(False, "LLM API JSON missing 'output' field")` as claimed, but
`CloudflareAIAgent.generate` raises an uncaught `KeyError` (the code reads
`data['result']['response']` with no check and catches only
`CloudflareAIAgentError`), so no `(False, msg)` pair is returned at all. -/
theorem c2_missing_field_behaviour :
    (AIAgent.generate "http://h" AIAgent.DEFAULT_SYSTEM_PROMPT missingFieldBackend emptyCache
        "er11" "lab" "hello" "Summarise").result =
      Except.ok (false, "LLM API JSON missing 'output' field") ∧
    (CloudflareAIAgent.generate CloudflareAIAgent.DEFAULT_SYSTEM_PROMPT missingFieldBackend
        emptyCache "er11" "lab" "hello" "Summarise").result =
      Except.error "KeyError: 'result'" := by
  refine ⟨?_, ?_⟩ <;> decide

/- ------------------------------------------------------------------ -/
/- Claim C9.                                                            -/
/- ------------------------------------------------------------------ -/

/-- C9: in the Completion variant, on a successful response whose `output`
field is present, the returned text is the output with every occurrence of
the echoed prompt removed and surrounding whitespace stripped when the prompt
occurs verbatim in the output, and the output with only whitespace stripping
when it does not. -/
theorem c9_echo_strip (baseUrl ps out text : String) (res : Option (Option String))
    (h1 : strContains baseUrl "cloudflare" = false)
    (h2 : strContains (baseUrl ++ "/generate") "cloudflare" = false) :
    (strContains out ps = true →
      AIAgent.request_ai baseUrl (Payload.completion ps)
          (NetResult.resp ⟨200, text, some ⟨some out, res⟩⟩) =
        Except.ok (pyStrip (pyReplace out ps ""))) ∧
    (strContains out ps = false →
      AIAgent.request_ai baseUrl (Payload.completion ps)
          (NetResult.resp ⟨200, text, some ⟨some out, res⟩⟩) =
        Except.ok (pyStrip out)) := by
  constructor <;> intro hocc <;>
    simp [AIAgent.request_ai, h1, h2, hocc]

/-- C9 witness: prompt `"p"` echoed inside output `" p hello"` is removed and
the result trimmed to `"hello"`; the prompt-free case is also exercised. -/
theorem c9_witness :
    (strContains "http://h" "cloudflare" = false ∧
      strContains ("http://h" ++ "/generate") "cloudflare" = false ∧
      strContains " p hello" "p" = true ∧ strContains "hi" "p" = false) ∧
    AIAgent.request_ai "http://h" (Payload.completion "p")
        (NetResult.resp ⟨200, "", some ⟨some " p hello", none⟩⟩) =
      Except.ok (pyStrip (pyReplace " p hello" "p" "")) ∧
    pyStrip (pyReplace " p hello" "p" "") = "hello" ∧
    AIAgent.request_ai "http://h" (Payload.completion "p")
        (NetResult.resp ⟨200, "", some ⟨some "hi", none⟩⟩) = Except.ok (pyStrip "hi") :=
  ⟨by decide,
    (c9_echo_strip "http://h" "p" " p hello" "" none (by decide) (by decide)).1 (by decide),
    by decide,
    (c9_echo_strip "http://h" "p" "hi" "" none (by decide) (by decide)).2 (by decide)⟩
